import Mathlib

/-!
Betting API proxy server (`betting-simulator/server.js`).

A shallow embedding of the Express application defined in `server.js` and the
properties of its routes.

Modelling decisions:

* A JavaScript `Error` is represented by its `message` string.
* A handler is a computation in `Eff`: it may throw, and it records every
  outbound `fetch` in a log that survives a throw (`try`/`catch` does not undo
  a request that was already sent).
* `fetch(url)` is answered by an `Upstream`, which either rejects (network
  failure) or resolves to a response carrying a status, headers and the result
  of `response.json()`.
* The clock (`new Date().toISOString()`), the text of the `TypeError` raised by
  reading a property of `null`, and `decodeURIComponent` belong to the
  JavaScript runtime and are fields of `Runtime`.
* A response is a status code together with a JSON body or no body. A handler
  yields the response it hands to `res.json`; the application then passes it
  through `send`, the tail of `res.json`, which turns a fresh conditional
  request into a 304 and sends no body for 204, 304 and `HEAD`. Response
  headers and console output are not modelled.
* Routing follows the framework defaults: paths are matched case-insensitively
  with an optional trailing slash, a path parameter is decoded as soon as the
  path of its route matches (before the method is looked at), and a route
  registered with `app.get` also serves `HEAD`.
-/

namespace BettingProxy

/-! ## JavaScript values -/

/-- A JSON value, as produced by `response.json()` and consumed by `res.json`.
A number is the decimal `mantissa / 10 ^ exponent`; the rounding of number
literals to IEEE doubles is not modelled. -/
inductive Json where
  | null : Json
  | bool (b : Bool) : Json
  | num (mantissa : Int) (exponent : Nat) : Json
  | str (s : String) : Json
  | arr (items : List Json) : Json
  | obj (fields : List (String × Json)) : Json

/-- A value found in `req.query`: a string, or a structured value (array or
nested object) built by the query parser, which is never equal to a string, is
always truthy, and is rendered by a template literal as `rendered`. -/
inductive QueryValue where
  | str (s : String) : QueryValue
  | structured (rendered : String) : QueryValue
deriving DecidableEq

/-- JavaScript truthiness of a query value: only the empty string is falsy. -/
def QueryValue.truthy : QueryValue → Bool
  | .str s => s ≠ ""
  | .structured _ => true

/-- Template-literal interpolation of a query value. -/
def QueryValue.render : QueryValue → String
  | .str s => s
  | .structured r => r

/-- The expression `v === 'true'` for a possibly undefined query value. -/
def strictEqualsTrue : Option QueryValue → Bool
  | some (.str s) => s = "true"
  | _ => false

/-- The expression `v || d` for a possibly undefined query value `v` and a
string literal `d`. -/
def queryOr (v : Option QueryValue) (d : String) : QueryValue :=
  match v with
  | some q => if q.truthy then q else .str d
  | none => .str d

/-- The expression `h || d` for a string-or-nothing `h` (a header value that
may be `null`, an environment variable that may be undefined) and a string
literal `d`. -/
def orDefault (h : Option String) (d : String) : String :=
  match h with
  | some s => if s = "" then d else s
  | none => d

/-- Template-literal interpolation of a possibly undefined string. -/
def renderParam : Option String → String
  | some s => s
  | none => "undefined"

/-! ## Configuration, runtime, requests and responses -/

/-- The environment variables read by `server.js`. -/
structure ProcessEnv where
  PORT : Option String
  ODDS_API_KEY : Option String
  FRONTEND_URL : Option String
  NODE_ENV : Option String

/-- The constant `API_KEY = process.env.ODDS_API_KEY || '1837…'`. -/
def API_KEY (env : ProcessEnv) : String :=
  orDefault env.ODDS_API_KEY "1837d40f7121f88248d0ab4c07d33357"

/-- The constant `API_HOST`. -/
def API_HOST : String := "https://api.the-odds-api.com"

/-- What the JavaScript runtime contributes to a request. -/
structure Runtime where
  /-- Value of `new Date().toISOString()` while the request is handled. -/
  isoNow : String
  /-- Message of the `TypeError` raised by reading `length` of `null`. -/
  nullLengthMessage : String
  /-- The function `decodeURIComponent`; `none` when it throws a `URIError`. -/
  decodeURIComponent : String → Option String

/-- An inbound HTTP request as seen by the application. -/
structure Request where
  /-- The field `req.method`. -/
  method : String
  /-- The field `req.path`: the URL path, without the query string. -/
  path : String
  /-- The field `req.query`. -/
  query : String → Option QueryValue
  /-- The field `req.params`, filled in by the router. -/
  params : String → Option String
  /-- The error raised by the `express.json()` body parser on this request's
  body, if any (`none` for a request without a body or with a body it accepts). -/
  bodyParserError : Option String
  /-- Whether the request's cache validators (`If-None-Match`,
  `If-Modified-Since`, unless `Cache-Control: no-cache`) are satisfied by a
  response carrying the given JSON body and the entity tag computed from it:
  constantly `false` for an unconditional request, constantly `true` for
  `If-None-Match: *`. -/
  conditionalMatch : Json → Bool

/-- An HTTP response: status code and the value given to `res.json`, or no
body. -/
structure Response where
  status : Nat
  body : Option Json

/-- An outbound request made with `fetch`. -/
structure UpstreamRequest where
  method : String
  url : String
deriving DecidableEq

/-- The upstream's answer once `fetch` resolves. -/
structure UpstreamResponse where
  status : Nat
  /-- The method `headers.get(name)`; `none` stands for `null`. -/
  headers : String → Option String
  /-- Outcome of `response.json()`: the parsed body or the parse error. -/
  json : Except String Json

/-- The property `response.ok`. -/
def UpstreamResponse.ok (r : UpstreamResponse) : Bool :=
  200 ≤ r.status && r.status < 300

/-- Outcome of the promise returned by `fetch`. -/
inductive FetchResult where
  | rejected (message : String) : FetchResult
  | resolved (response : UpstreamResponse) : FetchResult

/-- The upstream API: how each URL requested with `fetch` is answered. -/
abbrev Upstream := String → FetchResult

/-! ## Effects: exceptions and the log of outbound requests -/

/-- A computation that may throw an error (its message) and appends the
outbound requests it makes to a log. -/
def Eff (α : Type) : Type := List UpstreamRequest → Except String α × List UpstreamRequest

/-- Return a value without any effect. -/
def Eff.pure {α : Type} (a : α) : Eff α := fun log => (.ok a, log)

/-- Sequencing: a throw in the first computation skips the second. -/
def Eff.bind {α β : Type} (m : Eff α) (f : α → Eff β) : Eff β := fun log =>
  match m log with
  | (.ok a, log') => f a log'
  | (.error e, log') => (.error e, log')

instance : Monad Eff where
  pure := Eff.pure
  bind := Eff.bind

/-- The statement `throw new Error(message)`. -/
def throwNew {α : Type} (message : String) : Eff α := fun log => (.error message, log)

/-- The statement `try { body } catch (error) { handler(error.message) }`. -/
def tryCatch {α : Type} (body : Eff α) (handler : String → Eff α) : Eff α := fun log =>
  match body log with
  | (.ok a, log') => (.ok a, log')
  | (.error e, log') => handler e log'

/-- The expression `await fetch(url)`: the call is recorded in the log as one
GET request (the default method) with the URL text handed to `fetch`, and the
promise then either rejects or resolves as the upstream decides. -/
def fetch (upstream : Upstream) (url : String) : Eff UpstreamResponse := fun log =>
  match upstream url with
  | .rejected message => (.error message, log ++ [⟨"GET", url⟩])
  | .resolved response => (.ok response, log ++ [⟨"GET", url⟩])

/-- The expression `await response.json()`. -/
def UpstreamResponse.parseJson (r : UpstreamResponse) : Eff Json :=
  match r.json with
  | .ok data => Eff.pure data
  | .error message => throwNew message

/-- Evaluation of `data.length` inside the log line: reading a property of
`null` throws a `TypeError`, every other JSON value yields some value (used
only for the console). -/
def readLength (rt : Runtime) : Json → Eff Unit
  | .null => throwNew rt.nullLengthMessage
  | _ => Eff.pure ()

/-- The call `res.json(value)`: status 200 unless set otherwise. -/
def resJson (value : Json) : Response := { status := 200, body := some value }

/-- The call `res.status(code).json(value)`. -/
def resStatusJson (code : Nat) (value : Json) : Response := { status := code, body := some value }

/-- The error envelope `{ error, message }`. -/
def errorEnvelope (error message : String) : Json :=
  .obj [("error", .str error), ("message", .str message)]

/-! ## Route handlers -/

/-- Handler of `app.get('/')`. -/
def rootHandler (_req : Request) : Eff Response :=
  pure (resJson (.obj [
    ("status", .str "Betting API Proxy Server Running"),
    ("version", .str "1.0.0"),
    ("endpoints", .obj [
      ("sports", .str "/api/sports"),
      ("odds", .str "/api/odds/:sport"),
      ("usage", .str "/api/usage"),
      ("health", .str "/health")])]))

/-- Handler of `app.get('/health')`. -/
def healthHandler (rt : Runtime) (_req : Request) : Eff Response :=
  pure (resStatusJson 200 (.obj [("status", .str "healthy"), ("timestamp", .str rt.isoNow)]))

/-- The constant `url` of the sports handler. -/
def sportsUrl (env : ProcessEnv) (req : Request) : String :=
  let showAll := strictEqualsTrue (req.query "all")
  API_HOST ++ "/v4/sports/?apiKey=" ++ API_KEY env ++ (if showAll then "&all=true" else "")

/-- Handler of `app.get('/api/sports')`. -/
def sportsHandler (env : ProcessEnv) (rt : Runtime) (upstream : Upstream) (req : Request) :
    Eff Response :=
  tryCatch
    (do
      let url := sportsUrl env req
      let response ← fetch upstream url
      if !response.ok then
        throwNew ("API responded with status: " ++ toString response.status)
      let data ← response.parseJson
      readLength rt data
      pure (resJson data))
    (fun message => pure (resStatusJson 500 (errorEnvelope "Failed to fetch sports" message)))

/-- The constant `url` of the odds handler. -/
def oddsUrl (env : ProcessEnv) (req : Request) : String :=
  let sport := req.params "sport"
  let regions := queryOr (req.query "regions") "us"
  let markets := queryOr (req.query "markets") "h2h"
  API_HOST ++ "/v4/sports/" ++ renderParam sport ++ "/odds/?apiKey=" ++ API_KEY env
    ++ "&regions=" ++ regions.render ++ "&markets=" ++ markets.render

/-- Handler of `app.get('/api/odds/:sport')`. -/
def oddsHandler (env : ProcessEnv) (rt : Runtime) (upstream : Upstream) (req : Request) :
    Eff Response :=
  tryCatch
    (do
      let url := oddsUrl env req
      let response ← fetch upstream url
      if !response.ok then
        throwNew ("API responded with status: " ++ toString response.status)
      let data ← response.parseJson
      let _remaining := response.headers "x-requests-remaining"
      let _used := response.headers "x-requests-used"
      readLength rt data
      pure (resJson data))
    (fun message => pure (resStatusJson 500 (errorEnvelope "Failed to fetch odds" message)))

/-- The constant `url` of the usage handler. -/
def usageUrl (env : ProcessEnv) : String :=
  API_HOST ++ "/v4/sports/?apiKey=" ++ API_KEY env

/-- Handler of `app.get('/api/usage')`. -/
def usageHandler (env : ProcessEnv) (rt : Runtime) (upstream : Upstream) (_req : Request) :
    Eff Response :=
  tryCatch
    (do
      let url := usageUrl env
      let response ← fetch upstream url
      let remaining := response.headers "x-requests-remaining"
      let used := response.headers "x-requests-used"
      pure (resJson (.obj [
        ("requestsUsed", .str (orDefault used "N/A")),
        ("requestsRemaining", .str (orDefault remaining "N/A")),
        ("timestamp", .str rt.isoNow)])))
    (fun message => pure (resStatusJson 500 (errorEnvelope "Failed to check usage" message)))

/-- The 404 handler, `app.use((req, res) => …)`. -/
def notFoundHandler (_req : Request) : Eff Response :=
  pure (resStatusJson 404 (.obj [("error", .str "Endpoint not found")]))

/-- The error handler, `app.use((err, req, res, next) => …)`. -/
def errorHandler (_err : String) (_req : Request) : Eff Response :=
  pure (resStatusJson 500 (.obj [("error", .str "Internal server error")]))

/-! ## The application: middleware, routing and dispatch -/

/-- Start a computation with an empty log: its result (a value, or the message
of an error nobody caught) and the outbound requests it made, in order. -/
def Eff.run {α : Type} (m : Eff α) : Except String α × List UpstreamRequest := m []

/-- ASCII lower-casing of a character sequence, as done by
`req.method.toLowerCase()` and by a case-insensitive regular expression whose
pattern is ASCII. -/
def lowerAscii (cs : List Char) : List Char := cs.map Char.toLower

/-- The CORS middleware `cors(corsOptions)`, with its default
`preflightContinue: false`, ends a request whose method is `OPTIONS` itself. -/
def isPreflight (req : Request) : Bool :=
  req.method.data.map Char.toUpper == "OPTIONS".data

/-- The response written by the CORS middleware to a preflight request: status
`optionsSuccessStatus` (204 by default) and an empty body. -/
def corsPreflight : Eff Response := pure { status := 204, body := none }

/-- A route registered with `app.get` handles `GET`, and `HEAD` since no `HEAD`
handler is registered. -/
def handlesMethod (method : String) : Bool :=
  let m := lowerAscii method.data
  m == "get".data || m == "head".data

/-- Match of a request path against a route pattern without parameters, under
the router's default options (case-insensitive, optional trailing slash): the
pattern `p` is compiled to `^p\/?$` with flag `i`. The pattern `'/'` is
compiled to `^\/?$`, i.e. `p` is empty. -/
def matchesLiteral (pattern : String) (path : String) : Bool :=
  let p := lowerAscii path.data
  p == pattern.data || p == pattern.data ++ ['/']

/-- Match of a request path against `'/api/odds/:sport'`, compiled to
`^\/api\/odds\/(?:([^\/]+?))\/?$` with flag `i`: yields the captured text. -/
def matchOddsPath (path : String) : Option String :=
  let cs := path.data
  if lowerAscii (cs.take 10) == "/api/odds/".data then
    let rest := cs.drop 10
    let segment := if rest.getLast? = some '/' then rest.dropLast else rest
    if segment ≠ [] ∧ '/' ∉ segment then some ⟨segment⟩ else none
  else none

/-- The routes registered with `app.get`, with the decoded value of `:sport`. -/
inductive Route where
  | root : Route
  | health : Route
  | sports : Route
  | odds (sport : String) : Route
  | usage : Route
deriving DecidableEq

/-- Outcome of the router's scan over the registered routes. -/
inductive Routing where
  /-- A route matches the path and handles the method. -/
  | handledBy (route : Route) : Routing
  /-- Decoding a path parameter threw; the error is pending and no route runs. -/
  | failed (message : String) : Routing
  /-- No route matches. -/
  | unmatched : Routing
deriving DecidableEq

/-- The last step of the scan: the route `/api/usage`. -/
def matchUsage (req : Request) : Routing :=
  if matchesLiteral "/api/usage" req.path && handlesMethod req.method then
    .handledBy .usage
  else .unmatched

/-- The router's scan over the routes in registration order. For each route the
path is matched first, which decodes the `:sport` parameter and may throw; only
then is the method compared. A route whose path matches but whose method does
not is passed over; once a decoding error is pending no later route matches. -/
def matchRoute (rt : Runtime) (req : Request) : Routing :=
  if matchesLiteral "" req.path && handlesMethod req.method then .handledBy .root
  else if matchesLiteral "/health" req.path && handlesMethod req.method then .handledBy .health
  else if matchesLiteral "/api/sports" req.path && handlesMethod req.method then
    .handledBy .sports
  else
    match matchOddsPath req.path with
    | some capture =>
      match rt.decodeURIComponent capture with
      | none => .failed ("Failed to decode param '" ++ capture ++ "'")
      | some sport =>
        if handlesMethod req.method then .handledBy (.odds sport) else matchUsage req
    | none => matchUsage req

/-- The property `req.fresh` at the time a response with the given status and
body is about to be sent: only for `GET` and `HEAD`, only for a 2xx or 304
status, and only when the request's validators are satisfied. -/
def reqFresh (req : Request) (status : Nat) (value : Json) : Bool :=
  (req.method == "GET" || req.method == "HEAD")
    && ((200 ≤ status && status < 300) || status == 304)
    && req.conditionalMatch value

/-- The tail of `res.json`, i.e. `res.send`: a fresh request turns the status
into 304, a 204 or 304 response loses its body, and nothing is written as body
for a `HEAD` request. A response without a body was ended directly. -/
def send (req : Request) (r : Response) : Response :=
  match r.body with
  | none => r
  | some value =>
    let status := if reqFresh req r.status value then 304 else r.status
    let chunk := if status = 204 ∨ status = 304 then none else some value
    { status := status, body := if req.method = "HEAD" then none else chunk }

/-- Run a handler for `req` and pass the response it writes through `send`. -/
def sent (req : Request) (handler : Eff Response) : Eff Response := fun log =>
  match handler log with
  | (.ok r, log') => (.ok (send req r), log')
  | (.error e, log') => (.error e, log')

/-- The application `app`: the stack built by `app.use` and `app.get`, in
order: CORS, JSON body parser, the five routes, the 404 handler, the error
handler. An error raised by a middleware or by the router while decoding a path
parameter skips the routes and the 404 handler and reaches the error handler. -/
def app (env : ProcessEnv) (rt : Runtime) (upstream : Upstream) (req : Request) : Eff Response :=
  if isPreflight req then corsPreflight
  else
    sent req
      (match req.bodyParserError with
      | some err => errorHandler err req
      | none =>
        match matchRoute rt req with
        | .handledBy .root => rootHandler req
        | .handledBy .health => healthHandler rt req
        | .handledBy .sports => sportsHandler env rt upstream req
        | .handledBy (.odds sport) =>
          oddsHandler env rt upstream
            { req with params := fun name => if name = "sport" then some sport else none }
        | .handledBy .usage => usageHandler env rt upstream req
        | .failed message => errorHandler message req
        | .unmatched => notFoundHandler req)

/-! ## Sample inputs -/

/-- An environment without any variable set. -/
def sampleEnv : ProcessEnv :=
  { PORT := none, ODDS_API_KEY := none, FRONTEND_URL := none, NODE_ENV := none }

/-- A runtime with a fixed clock, the message V8 gives for `null.length`, and a
`decodeURIComponent` that is the identity on text without `%` and throws on
any text with `%`; it agrees with the real function on text without `%` and on
malformed escapes such as `%E0%A4%A`. -/
def sampleRuntime : Runtime :=
  { isoNow := "2024-01-01T00:00:00.000Z"
    nullLengthMessage := "Cannot read properties of null (reading 'length')"
    decodeURIComponent := fun s => if '%' ∈ s.data then none else some s }

/-- An upstream answering every URL with the given status, no usage headers
and the given outcome of `response.json()`. -/
def answering (status : Nat) (json : Except String Json) : Upstream :=
  fun _ => .resolved { status := status, headers := fun _ => none, json := json }

/-- An upstream that answers the sports list with 200 and an empty array, and
every other URL (the odds of a sport it does not know) with 404 and body
`[1]`. -/
def unknownSportUpstream : Upstream :=
  fun url =>
    if url = usageUrl sampleEnv then
      .resolved { status := 200, headers := fun _ => none, json := .ok (.arr []) }
    else .resolved { status := 404, headers := fun _ => none, json := .ok (.arr [.num 1 0]) }

/-- An upstream that is unreachable for the usage check and answers every other
URL with status 200 and a body that is not JSON. -/
def flakyUpstream : Upstream :=
  fun url =>
    if url = usageUrl sampleEnv then .rejected "socket hang up"
    else .resolved { status := 200, headers := fun _ => none, json := .error "socket hang up" }

/-- An upstream answering every URL with status 200, an empty JSON array and
only the `x-requests-used` header, set to `"0"`. -/
def freshQuotaUpstream : Upstream :=
  fun _ => .resolved
    { status := 200
      headers := fun name => if name = "x-requests-used" then some "0" else none
      json := .ok (.arr []) }

/-- An unconditional request with the given method and path, no query, no
body. -/
def sampleRequest (method path : String) : Request :=
  { method := method, path := path, query := fun _ => none, params := fun _ => none,
    bodyParserError := none, conditionalMatch := fun _ => false }

/-- The request `GET /api/odds/<sport>` as the odds handler receives it from
the router, without query parameters. -/
def oddsRequest (sport : String) : Request :=
  { sampleRequest "GET" ("/api/odds/" ++ sport) with
    params := fun name => if name = "sport" then some sport else none }

/-- The request `GET /api/odds/<sport>` with the given `regions` and `markets`
query parameters, each a string or omitted. -/
def oddsQuery (sport : String) (regions markets : Option String) : Request :=
  { oddsRequest sport with
    query := fun name =>
      if name = "regions" then regions.map QueryValue.str
      else if name = "markets" then markets.map QueryValue.str
      else none }

/-- The request `GET /api/sports?all=true`. -/
def allSportsRequest : Request :=
  { sampleRequest "GET" "/api/sports" with
    query := fun name => if name = "all" then some (.str "true") else none }

/-! ## Auxiliary facts -/

/-- Both proxying handlers share one shape: fetch, status check, parse, log
line, relay; only the URL and the label of the error envelope differ. -/
def proxyBody (rt : Runtime) (upstream : Upstream) (url : String) : Eff Response := do
  let response ← fetch upstream url
  if !response.ok then
    throwNew ("API responded with status: " ++ toString response.status)
  let data ← response.parseJson
  readLength rt data
  pure (resJson data)

theorem sportsHandler_eq (env : ProcessEnv) (rt : Runtime) (upstream : Upstream) (req : Request) :
    sportsHandler env rt upstream req =
      tryCatch (proxyBody rt upstream (sportsUrl env req))
        (fun message => pure (resStatusJson 500 (errorEnvelope "Failed to fetch sports" message))) :=
  rfl

theorem oddsHandler_eq (env : ProcessEnv) (rt : Runtime) (upstream : Upstream) (req : Request) :
    oddsHandler env rt upstream req =
      tryCatch (proxyBody rt upstream (oddsUrl env req))
        (fun message => pure (resStatusJson 500 (errorEnvelope "Failed to fetch odds" message))) :=
  rfl

/-- Whatever happens afterwards, the body of a proxying handler has sent exactly
one request when it finishes or throws. -/
theorem proxyBody_log (rt : Runtime) (upstream : Upstream) (url : String)
    (log : List UpstreamRequest) :
    (proxyBody rt upstream url log).2 = log ++ [⟨"GET", url⟩] := by
  unfold proxyBody
  simp only [bind, Eff.bind, fetch, pure, Eff.pure]
  cases hu : upstream url with
  | rejected message => rfl
  | resolved response =>
    simp only
    cases hok : response.ok with
    | false => rfl
    | true =>
      simp only [Bool.not_true, Bool.false_eq_true, if_false, UpstreamResponse.parseJson]
      cases hj : response.json with
      | error message => rfl
      | ok data => cases data <;> rfl

/-- The log is untouched by a `catch` block that only writes the response. -/
theorem tryCatch_pure_log {α : Type} (body : Eff α) (reply : String → α)
    (log : List UpstreamRequest) :
    (tryCatch body (fun message => pure (reply message)) log).2 = (body log).2 := by
  unfold tryCatch
  cases h : body log with
  | mk result log' => cases result <;> rfl

theorem proxyBody_rejected (rt : Runtime) (upstream : Upstream) (url message : String)
    (log : List UpstreamRequest) (h : upstream url = .rejected message) :
    (proxyBody rt upstream url log).1 = .error message := by
  simp [proxyBody, bind, Eff.bind, fetch, h]

theorem proxyBody_not_ok (rt : Runtime) (upstream : Upstream) (url : String)
    (r : UpstreamResponse) (log : List UpstreamRequest)
    (h : upstream url = .resolved r) (hok : r.ok = false) :
    (proxyBody rt upstream url log).1
      = .error ("API responded with status: " ++ toString r.status) := by
  simp [proxyBody, bind, Eff.bind, fetch, h, hok, throwNew]

theorem proxyBody_bad_json (rt : Runtime) (upstream : Upstream) (url message : String)
    (r : UpstreamResponse) (log : List UpstreamRequest)
    (h : upstream url = .resolved r) (hok : r.ok = true) (hj : r.json = .error message) :
    (proxyBody rt upstream url log).1 = .error message := by
  simp [proxyBody, bind, Eff.bind, fetch, h, hok, hj, throwNew, UpstreamResponse.parseJson,
    pure, Eff.pure]

theorem proxyBody_null (rt : Runtime) (upstream : Upstream) (url : String)
    (r : UpstreamResponse) (log : List UpstreamRequest)
    (h : upstream url = .resolved r) (hok : r.ok = true) (hj : r.json = .ok .null) :
    (proxyBody rt upstream url log).1 = .error rt.nullLengthMessage := by
  simp [proxyBody, bind, Eff.bind, fetch, h, hok, hj, throwNew, UpstreamResponse.parseJson,
    pure, Eff.pure, readLength]

theorem proxyBody_relay (rt : Runtime) (upstream : Upstream) (url : String)
    (r : UpstreamResponse) (data : Json) (log : List UpstreamRequest)
    (h : upstream url = .resolved r) (hok : r.ok = true) (hj : r.json = .ok data)
    (hnull : data ≠ .null) :
    (proxyBody rt upstream url log).1 = .ok (resJson data) := by
  cases data with
  | null => exact absurd rfl hnull
  | _ =>
    simp [proxyBody, bind, Eff.bind, fetch, h, hok, hj, UpstreamResponse.parseJson,
      pure, Eff.pure, readLength]

/-- Result of a `try`/`catch` whose `catch` block only writes a response. -/
theorem tryCatch_pure_result {α : Type} (body : Eff α) (reply : String → α)
    (log : List UpstreamRequest) :
    (tryCatch body (fun message => pure (reply message)) log).1 =
      match (body log).1 with
      | .ok a => .ok a
      | .error message => .ok (reply message) := by
  unfold tryCatch
  cases h : body log with
  | mk result log' => cases result <;> rfl

theorem response_ok_iff (r : UpstreamResponse) :
    r.ok = true ↔ (200 ≤ r.status ∧ r.status < 300) := by
  simp [UpstreamResponse.ok]

/-! ## URL construction -/

/-- C1: for every request handled by the `/api/sports` handler, exactly one
upstream request is made, it is a GET, and its URL is
`API_HOST + "/v4/sports/?apiKey=" + API_KEY` followed by `"&all=true"` exactly
when the `all` query parameter is the string `"true"`; for an absent `all` or
any other value the URL ends right after the API key. -/
theorem sports_issues_one_upstream_get (env : ProcessEnv) (rt : Runtime) (upstream : Upstream)
    (req : Request) :
    (sportsHandler env rt upstream req).run.2 =
      if req.query "all" = some (.str "true") then
        [⟨"GET", API_HOST ++ "/v4/sports/?apiKey=" ++ API_KEY env ++ "&all=true"⟩]
      else
        [⟨"GET", API_HOST ++ "/v4/sports/?apiKey=" ++ API_KEY env⟩] := by
  rw [sportsHandler_eq]
  unfold Eff.run
  rw [tryCatch_pure_log, proxyBody_log]
  unfold sportsUrl
  cases hq : req.query "all" with
  | none => simp [strictEqualsTrue]
  | some v =>
    cases v with
    | structured r => simp [strictEqualsTrue]
    | str t =>
      by_cases ht : t = "true"
      · simp [strictEqualsTrue, ht]
      · simp [strictEqualsTrue, ht]

/-- C2: for every sport and every `regions`/`markets` query parameter that is
omitted or a non-empty string, the `/api/odds/:sport` handler makes exactly one
upstream request, a GET to `API_HOST + "/v4/sports/" + sport + "/odds/?apiKey="
+ API_KEY + "&regions=" + r + "&markets=" + m`, where `r` is the given regions
or `"us"` when omitted and `m` the given markets or `"h2h"` when omitted. -/
theorem odds_issues_one_upstream_get (env : ProcessEnv) (rt : Runtime) (upstream : Upstream)
    (req : Request) (sport : String) (regions markets : Option String)
    (hsport : req.params "sport" = some sport)
    (hregions : req.query "regions" = regions.map QueryValue.str)
    (hmarkets : req.query "markets" = markets.map QueryValue.str)
    (hr : regions ≠ some "") (hm : markets ≠ some "") :
    (oddsHandler env rt upstream req).run.2 =
      [⟨"GET", API_HOST ++ "/v4/sports/" ++ sport ++ "/odds/?apiKey=" ++ API_KEY env
        ++ "&regions=" ++ regions.getD "us" ++ "&markets=" ++ markets.getD "h2h"⟩] := by
  rw [oddsHandler_eq]
  unfold Eff.run
  rw [tryCatch_pure_log, proxyBody_log]
  unfold oddsUrl
  have h1 : (queryOr (req.query "regions") "us").render = regions.getD "us" := by
    rw [hregions]
    cases regions with
    | none => rfl
    | some t =>
      have : t ≠ "" := fun h => hr (by rw [h])
      simp [queryOr, QueryValue.truthy, QueryValue.render, this]
  have h2 : (queryOr (req.query "markets") "h2h").render = markets.getD "h2h" := by
    rw [hmarkets]
    cases markets with
    | none => rfl
    | some t =>
      have : t ≠ "" := fun h => hm (by rw [h])
      simp [queryOr, QueryValue.truthy, QueryValue.render, this]
  simp only [h1, h2, hsport, renderParam, List.nil_append]

/-- Witness of C2 at `GET /api/odds/soccer_epl?regions=uk` (markets omitted). -/
theorem odds_issues_one_upstream_get_witness :
    (oddsHandler sampleEnv sampleRuntime (answering 200 (.ok (.arr [])))
        { sampleRequest "GET" "/api/odds/soccer_epl" with
          params := fun _ => some "soccer_epl"
          query := fun name => if name = "regions" then some (.str "uk") else none }).run.2 =
      [⟨"GET", API_HOST ++ "/v4/sports/" ++ "soccer_epl" ++ "/odds/?apiKey=" ++ API_KEY sampleEnv
        ++ "&regions=" ++ "uk" ++ "&markets=" ++ "h2h"⟩] :=
  odds_issues_one_upstream_get sampleEnv sampleRuntime (answering 200 (.ok (.arr [])))
    { sampleRequest "GET" "/api/odds/soccer_epl" with
      params := fun _ => some "soccer_epl"
      query := fun name => if name = "regions" then some (.str "uk") else none }
    "soccer_epl" (some "uk") none rfl (by decide) (by decide) (by decide) (by decide)

/-- C10: on `/api/odds/:sport`, a `regions` or `markets` query parameter that
is present but the empty string is treated exactly like an omitted one, each
parameter on its own and whatever the other one and the sport are: the URL and
the whole outcome of the handler equal those for the request with that
parameter removed, and the default (`us`, resp. `h2h`) is used. In particular
the URL built for `?regions=&markets=` equals the URL built without query
parameters, which ends in `&regions=us&markets=h2h`. -/
theorem odds_empty_params_like_omitted (env : ProcessEnv) (rt : Runtime) (upstream : Upstream)
    (req : Request) :
    (req.query "regions" = some (.str "") →
      oddsUrl env req
        = oddsUrl env
            { req with query := fun name => if name = "regions" then none else req.query name }
      ∧ oddsUrl env req
        = API_HOST ++ "/v4/sports/" ++ renderParam (req.params "sport") ++ "/odds/?apiKey="
            ++ API_KEY env ++ "&regions=" ++ "us" ++ "&markets="
            ++ (queryOr (req.query "markets") "h2h").render
      ∧ (oddsHandler env rt upstream req).run
        = (oddsHandler env rt upstream
            { req with
              query := fun name => if name = "regions" then none else req.query name }).run)
    ∧ (req.query "markets" = some (.str "") →
      oddsUrl env req
        = oddsUrl env
            { req with query := fun name => if name = "markets" then none else req.query name }
      ∧ oddsUrl env req
        = API_HOST ++ "/v4/sports/" ++ renderParam (req.params "sport") ++ "/odds/?apiKey="
            ++ API_KEY env ++ "&regions=" ++ (queryOr (req.query "regions") "us").render
            ++ "&markets=" ++ "h2h"
      ∧ (oddsHandler env rt upstream req).run
        = (oddsHandler env rt upstream
            { req with
              query := fun name => if name = "markets" then none else req.query name }).run)
    ∧ (req.query "regions" = some (.str "") → req.query "markets" = some (.str "") →
      oddsUrl env req = oddsUrl env { req with query := fun _ => none }
      ∧ oddsUrl env req
        = API_HOST ++ "/v4/sports/" ++ renderParam (req.params "sport") ++ "/odds/?apiKey="
            ++ API_KEY env ++ "&regions=" ++ "us" ++ "&markets=" ++ "h2h"
      ∧ (oddsHandler env rt upstream req).run
        = (oddsHandler env rt upstream { req with query := fun _ => none }).run) := by
  refine ⟨?_, ?_, ?_⟩
  · intro hregions
    have hurl : oddsUrl env req
        = oddsUrl env
            { req with query := fun name => if name = "regions" then none else req.query name } := by
      simp [oddsUrl, hregions, queryOr, QueryValue.truthy]
    refine ⟨hurl, ?_, ?_⟩
    · simp [oddsUrl, hregions, queryOr, QueryValue.truthy, QueryValue.render]
    · rw [oddsHandler_eq, oddsHandler_eq, hurl]
  · intro hmarkets
    have hurl : oddsUrl env req
        = oddsUrl env
            { req with query := fun name => if name = "markets" then none else req.query name } := by
      simp [oddsUrl, hmarkets, queryOr, QueryValue.truthy]
    refine ⟨hurl, ?_, ?_⟩
    · simp [oddsUrl, hmarkets, queryOr, QueryValue.truthy, QueryValue.render]
    · rw [oddsHandler_eq, oddsHandler_eq, hurl]
  · intro hregions hmarkets
    have hurl : oddsUrl env req = oddsUrl env { req with query := fun _ => none } := by
      simp [oddsUrl, hregions, hmarkets, queryOr, QueryValue.truthy]
    refine ⟨hurl, ?_, ?_⟩
    · simp [oddsUrl, hregions, hmarkets, queryOr, QueryValue.truthy, QueryValue.render]
    · rw [oddsHandler_eq, oddsHandler_eq, hurl]

/-- Witness of C10 at `?regions=&markets=totals`, at `?regions=uk&markets=` and
at `?regions=&markets=`, all for the sport `nfl`. -/
theorem odds_empty_params_like_omitted_witness :
    oddsUrl sampleEnv (oddsQuery "nfl" (some "") (some "totals"))
      = "https://api.the-odds-api.com/v4/sports/nfl/odds/?apiKey=1837d40f7121f88248d0ab4c07d33357&regions=us&markets=totals"
    ∧ oddsUrl sampleEnv (oddsQuery "nfl" (some "uk") (some ""))
      = "https://api.the-odds-api.com/v4/sports/nfl/odds/?apiKey=1837d40f7121f88248d0ab4c07d33357&regions=uk&markets=h2h"
    ∧ oddsUrl sampleEnv (oddsQuery "nfl" (some "") (some ""))
      = "https://api.the-odds-api.com/v4/sports/nfl/odds/?apiKey=1837d40f7121f88248d0ab4c07d33357&regions=us&markets=h2h" :=
  ⟨((odds_empty_params_like_omitted sampleEnv sampleRuntime (answering 200 (.ok (.arr [])))
      (oddsQuery "nfl" (some "") (some "totals"))).1 rfl).2.1.trans (by decide),
   ((odds_empty_params_like_omitted sampleEnv sampleRuntime (answering 200 (.ok (.arr [])))
      (oddsQuery "nfl" (some "uk") (some ""))).2.1 rfl).2.1.trans (by decide),
   ((odds_empty_params_like_omitted sampleEnv sampleRuntime (answering 200 (.ok (.arr [])))
      (oddsQuery "nfl" (some "") (some ""))).2.2 rfl rfl).2.1.trans (by decide)⟩

/-! ## Relaying the upstream answer -/

/-- When `response.json()` yields a value of the model other than `null` for a
success answer, each proxying handler hands that same value to `res.json` with
status 200. What the parser makes of the upstream text (numbers rounded to
doubles, repeated keys) and what `send` makes of the response afterwards are
not part of this statement. -/
theorem success_body_relayed (env : ProcessEnv) (rt : Runtime) (upstream : Upstream)
    (sportsReq oddsReq : Request) (r : UpstreamResponse) (data : Json)
    (hok : r.ok = true) (hj : r.json = .ok data) (hnull : data ≠ .null) :
    (upstream (sportsUrl env sportsReq) = .resolved r →
      (sportsHandler env rt upstream sportsReq).run.1
        = .ok { status := 200, body := some data })
    ∧ (upstream (oddsUrl env oddsReq) = .resolved r →
      (oddsHandler env rt upstream oddsReq).run.1
        = .ok { status := 200, body := some data }) := by
  constructor
  · intro h
    rw [sportsHandler_eq]
    unfold Eff.run
    rw [tryCatch_pure_result, proxyBody_relay rt upstream _ r data [] h hok hj hnull]
    rfl
  · intro h
    rw [oddsHandler_eq]
    unfold Eff.run
    rw [tryCatch_pure_result, proxyBody_relay rt upstream _ r data [] h hok hj hnull]
    rfl

/-- The end-to-end example of the specification: `GET
/api/odds/soccer_epl?regions=uk&markets=h2h,totals` against an upstream
returning `[{"id":"g1"}]` yields status 200 and that body, after one request. -/
theorem end_to_end_example :
    (app sampleEnv sampleRuntime (answering 200 (.ok (.arr [.obj [("id", .str "g1")]])))
        { sampleRequest "GET" "/api/odds/soccer_epl" with
          query := fun name =>
            if name = "regions" then some (.str "uk")
            else if name = "markets" then some (.str "h2h,totals") else none }).run
      = (.ok { status := 200, body := some (.arr [.obj [("id", .str "g1")]]) },
         [⟨"GET", "https://api.the-odds-api.com/v4/sports/soccer_epl/odds/?apiKey=1837d40f7121f88248d0ab4c07d33357&regions=uk&markets=h2h,totals"⟩]) :=
  rfl

/-- C3 (evaluation at the failing input): when the upstream answers 200 with
the JSON value `null`, neither handler relays it: reading `data.length` for the
log line throws, and the response is the 500 error envelope carrying the
runtime's `TypeError` message. -/
theorem null_body_answered_with_500 :
    (sportsHandler sampleEnv sampleRuntime (answering 200 (.ok .null))
        (sampleRequest "GET" "/api/sports")).run.1
      = .ok { status := 500, body := some (.obj
          [("error", .str "Failed to fetch sports"),
           ("message", .str "Cannot read properties of null (reading 'length')")]) }
    ∧ (oddsHandler sampleEnv sampleRuntime (answering 200 (.ok .null)) (oddsRequest "nfl")).run.1
      = .ok { status := 500, body := some (.obj
          [("error", .str "Failed to fetch odds"),
           ("message", .str "Cannot read properties of null (reading 'length')")]) } :=
  ⟨rfl, rfl⟩

/-- C4: for every upstream answer with a non-2xx status `N`, the sports handler
responds 500 with `{error: "Failed to fetch sports", message: "API responded
with status: N"}`, and, independently, the odds handler responds 500 with
`{error: "Failed to fetch odds", message: "API responded with status: N"}`;
nothing of the upstream body or headers appears in the response. -/
theorem non_success_status_gives_500 (env : ProcessEnv) (rt : Runtime) (upstream : Upstream) :
    (∀ (req : Request) (r : UpstreamResponse),
      ¬ (200 ≤ r.status ∧ r.status < 300) →
      upstream (sportsUrl env req) = .resolved r →
      (sportsHandler env rt upstream req).run.1
        = .ok { status := 500, body := some (.obj
            [("error", .str "Failed to fetch sports"),
             ("message", .str ("API responded with status: " ++ toString r.status))]) })
    ∧ (∀ (req : Request) (r : UpstreamResponse),
      ¬ (200 ≤ r.status ∧ r.status < 300) →
      upstream (oddsUrl env req) = .resolved r →
      (oddsHandler env rt upstream req).run.1
        = .ok { status := 500, body := some (.obj
            [("error", .str "Failed to fetch odds"),
             ("message", .str ("API responded with status: " ++ toString r.status))]) }) := by
  have hok : ∀ r : UpstreamResponse, ¬ (200 ≤ r.status ∧ r.status < 300) → r.ok = false := by
    intro r hstatus
    cases h : r.ok with
    | false => rfl
    | true => exact absurd ((response_ok_iff r).mp h) hstatus
  constructor
  · intro req r hstatus hsports
    rw [sportsHandler_eq]
    unfold Eff.run
    rw [tryCatch_pure_result, proxyBody_not_ok rt upstream _ r [] hsports (hok r hstatus)]
    rfl
  · intro req r hstatus hodds
    rw [oddsHandler_eq]
    unfold Eff.run
    rw [tryCatch_pure_result, proxyBody_not_ok rt upstream _ r [] hodds (hok r hstatus)]
    rfl

/-- Witness of C4 at an upstream that knows the sports list but answers 404 with
body `[1]` for the odds of an unknown sport, and at one answering 503 for the
sports list. -/
theorem non_success_status_gives_500_witness :
    (sportsHandler sampleEnv sampleRuntime (answering 503 (.ok (.arr [.num 1 0])))
        (sampleRequest "GET" "/api/sports")).run.1
      = .ok { status := 500, body := some (.obj
          [("error", .str "Failed to fetch sports"),
           ("message", .str "API responded with status: 503")]) }
    ∧ (oddsHandler sampleEnv sampleRuntime unknownSportUpstream (oddsRequest "curling")).run.1
      = .ok { status := 500, body := some (.obj
          [("error", .str "Failed to fetch odds"),
           ("message", .str "API responded with status: 404")]) } :=
  ⟨(non_success_status_gives_500 sampleEnv sampleRuntime
      (answering 503 (.ok (.arr [.num 1 0])))).1
      (sampleRequest "GET" "/api/sports")
      { status := 503, headers := fun _ => none, json := .ok (.arr [.num 1 0]) }
      (by decide) rfl,
   (non_success_status_gives_500 sampleEnv sampleRuntime unknownSportUpstream).2
      (oddsRequest "curling")
      { status := 404, headers := fun _ => none, json := .ok (.arr [.num 1 0]) }
      (by decide) rfl⟩

/-! ## The usage check -/

/-- Once `fetch` resolves, the usage handler answers 200 with the two counters
read from the headers; status and body of the upstream answer are not read. -/
theorem usageHandler_resolved (env : ProcessEnv) (rt : Runtime) (upstream : Upstream)
    (req : Request) (r : UpstreamResponse) (h : upstream (usageUrl env) = .resolved r) :
    (usageHandler env rt upstream req).run
      = (.ok { status := 200, body := some (.obj
          [("requestsUsed", .str (orDefault (r.headers "x-requests-used") "N/A")),
           ("requestsRemaining", .str (orDefault (r.headers "x-requests-remaining") "N/A")),
           ("timestamp", .str rt.isoNow)]) },
         [⟨"GET", usageUrl env⟩]) := by
  simp [usageHandler, Eff.run, tryCatch, bind, Eff.bind, fetch, h, pure, Eff.pure, resJson]

/-- C5 (counterexample): with an upstream answering status 500, the usage
handler does not respond with a 500 error envelope; it responds 200 with both
counters set to `"N/A"`. -/
theorem usage_upstream_500_answered_with_200 :
    (usageHandler sampleEnv sampleRuntime (answering 500 (.ok .null))
        (sampleRequest "GET" "/api/usage")).run.1
      = .ok { status := 200, body := some (.obj
          [("requestsUsed", .str "N/A"), ("requestsRemaining", .str "N/A"),
           ("timestamp", .str "2024-01-01T00:00:00.000Z")]) }
    ∧ ¬ ∃ error message,
        (usageHandler sampleEnv sampleRuntime (answering 500 (.ok .null))
          (sampleRequest "GET" "/api/usage")).run.1
        = .ok { status := 500, body := some (errorEnvelope error message) } := by
  refine ⟨rfl, ?_⟩
  rintro ⟨error, message, h⟩
  have h200 : (usageHandler sampleEnv sampleRuntime (answering 500 (.ok .null))
      (sampleRequest "GET" "/api/usage")).run.1
      = .ok { status := 200, body := some (.obj
          [("requestsUsed", .str "N/A"), ("requestsRemaining", .str "N/A"),
           ("timestamp", .str "2024-01-01T00:00:00.000Z")]) } := rfl
  rw [h200] at h
  injection h with h
  injection h with hstatus _
  exact absurd hstatus (by decide)

/-- C5 (amended): when the upstream call made by the usage handler returns a
non-success status, the handler still responds 200 with `{requestsUsed,
requestsRemaining, timestamp}` read from the response headers, after exactly
one upstream GET; the upstream status is not inspected on this route. -/
theorem usage_ignores_upstream_status (env : ProcessEnv) (rt : Runtime) (upstream : Upstream)
    (req : Request) (r : UpstreamResponse)
    (_hstatus : ¬ (200 ≤ r.status ∧ r.status < 300))
    (h : upstream (usageUrl env) = .resolved r) :
    (usageHandler env rt upstream req).run
      = (.ok { status := 200, body := some (.obj
          [("requestsUsed", .str (orDefault (r.headers "x-requests-used") "N/A")),
           ("requestsRemaining", .str (orDefault (r.headers "x-requests-remaining") "N/A")),
           ("timestamp", .str rt.isoNow)]) },
         [⟨"GET", API_HOST ++ "/v4/sports/?apiKey=" ++ API_KEY env⟩]) :=
  usageHandler_resolved env rt upstream req r h

/-- Witness of C5 (amended) at an upstream answering 429. -/
theorem usage_ignores_upstream_status_witness :
    (usageHandler sampleEnv sampleRuntime (answering 429 (.error "Unexpected token"))
        (sampleRequest "GET" "/api/usage")).run
      = (.ok { status := 200, body := some (.obj
          [("requestsUsed", .str "N/A"), ("requestsRemaining", .str "N/A"),
           ("timestamp", .str "2024-01-01T00:00:00.000Z")]) },
         [⟨"GET", API_HOST ++ "/v4/sports/?apiKey=" ++ API_KEY sampleEnv⟩]) :=
  usage_ignores_upstream_status sampleEnv sampleRuntime (answering 429 (.error "Unexpected token"))
    (sampleRequest "GET" "/api/usage")
    { status := 429, headers := fun _ => none, json := .error "Unexpected token" }
    (by decide) rfl

/-- C6: for every upstream answer received by the usage handler, the response
is 200 and its body has `requestsUsed` decided from the `x-requests-used`
header alone and `requestsRemaining` from `x-requests-remaining` alone, by the
same rule: the header value when it is present and non-empty (`"0"` included),
the string `"N/A"` when it is absent. Status and body of the upstream answer
play no part. -/
theorem usage_counters_from_headers (env : ProcessEnv) (rt : Runtime) (upstream : Upstream)
    (req : Request) (r : UpstreamResponse) (h : upstream (usageUrl env) = .resolved r) :
    (usageHandler env rt upstream req).run.1
      = .ok { status := 200, body := some (.obj
          [("requestsUsed", .str (orDefault (r.headers "x-requests-used") "N/A")),
           ("requestsRemaining", .str (orDefault (r.headers "x-requests-remaining") "N/A")),
           ("timestamp", .str rt.isoNow)]) }
    ∧ (∀ value : String, value ≠ "" → orDefault (some value) "N/A" = value)
    ∧ orDefault (some "0") "N/A" = "0"
    ∧ orDefault none "N/A" = "N/A" := by
  refine ⟨?_, ?_, by decide, rfl⟩
  · rw [usageHandler_resolved env rt upstream req r h]
  · intro value hv
    simp [orDefault, hv]

/-- Witness of C6 at an upstream sending `x-requests-used: 0` and no
`x-requests-remaining` header. -/
theorem usage_counters_from_headers_witness :
    (usageHandler sampleEnv sampleRuntime freshQuotaUpstream
        (sampleRequest "GET" "/api/usage")).run.1
      = .ok { status := 200, body := some (.obj
          [("requestsUsed", .str "0"), ("requestsRemaining", .str "N/A"),
           ("timestamp", .str "2024-01-01T00:00:00.000Z")]) } :=
  (usage_counters_from_headers sampleEnv sampleRuntime freshQuotaUpstream
    (sampleRequest "GET" "/api/usage")
    { status := 200
      headers := fun name => if name = "x-requests-used" then some "0" else none
      json := .ok (.arr []) } rfl).1

/-! ## Failures of the outbound call -/

/-- C9: on each proxying route taken by itself, a failure of the outbound call
(the `fetch` promise rejects with an error of message `m`) is caught inside the
handler, which completes with the 500 response `{error: E, message: m}`, `E`
being `"Failed to fetch sports"`, `"Failed to fetch odds"` or `"Failed to check
usage"`; the same holds on the sports and odds routes when a success answer's
body fails to parse as JSON with an error of message `m`. In no case does an
error leave the handler. -/
theorem outbound_failure_gives_500 (env : ProcessEnv) (rt : Runtime) (upstream : Upstream) :
    (∀ (req : Request) (m : String),
      upstream (sportsUrl env req) = .rejected m →
      (sportsHandler env rt upstream req).run.1
        = .ok { status := 500, body := some (.obj
            [("error", .str "Failed to fetch sports"), ("message", .str m)]) })
    ∧ (∀ (req : Request) (m : String),
      upstream (oddsUrl env req) = .rejected m →
      (oddsHandler env rt upstream req).run.1
        = .ok { status := 500, body := some (.obj
            [("error", .str "Failed to fetch odds"), ("message", .str m)]) })
    ∧ (∀ (req : Request) (m : String),
      upstream (usageUrl env) = .rejected m →
      (usageHandler env rt upstream req).run.1
        = .ok { status := 500, body := some (.obj
            [("error", .str "Failed to check usage"), ("message", .str m)]) })
    ∧ (∀ (req : Request) (m : String) (r : UpstreamResponse),
      upstream (sportsUrl env req) = .resolved r →
      (200 ≤ r.status ∧ r.status < 300) → r.json = .error m →
      (sportsHandler env rt upstream req).run.1
        = .ok { status := 500, body := some (.obj
            [("error", .str "Failed to fetch sports"), ("message", .str m)]) })
    ∧ (∀ (req : Request) (m : String) (r : UpstreamResponse),
      upstream (oddsUrl env req) = .resolved r →
      (200 ≤ r.status ∧ r.status < 300) → r.json = .error m →
      (oddsHandler env rt upstream req).run.1
        = .ok { status := 500, body := some (.obj
            [("error", .str "Failed to fetch odds"), ("message", .str m)]) }) := by
  refine ⟨?_, ?_, ?_, ?_, ?_⟩
  · intro req m h
    rw [sportsHandler_eq]
    unfold Eff.run
    rw [tryCatch_pure_result, proxyBody_rejected rt upstream _ m [] h]
    rfl
  · intro req m h
    rw [oddsHandler_eq]
    unfold Eff.run
    rw [tryCatch_pure_result, proxyBody_rejected rt upstream _ m [] h]
    rfl
  · intro req m h
    simp [usageHandler, Eff.run, tryCatch, bind, Eff.bind, fetch, h, pure, Eff.pure,
      resStatusJson, errorEnvelope]
  · intro req m r h hstatus hj
    rw [sportsHandler_eq]
    unfold Eff.run
    rw [tryCatch_pure_result,
      proxyBody_bad_json rt upstream _ m r [] h ((response_ok_iff r).mpr hstatus) hj]
    rfl
  · intro req m r h hstatus hj
    rw [oddsHandler_eq]
    unfold Eff.run
    rw [tryCatch_pure_result,
      proxyBody_bad_json rt upstream _ m r [] h ((response_ok_iff r).mpr hstatus) hj]
    rfl

/-- Witness of C9: each of the five cases at an upstream of its own, with a
message of its own. -/
theorem outbound_failure_gives_500_witness :
    (sportsHandler sampleEnv sampleRuntime (fun _ => .rejected "getaddrinfo ENOTFOUND")
        allSportsRequest).run.1
      = .ok { status := 500, body := some (.obj
          [("error", .str "Failed to fetch sports"),
           ("message", .str "getaddrinfo ENOTFOUND")]) }
    ∧ (oddsHandler sampleEnv sampleRuntime (fun _ => .rejected "connect ECONNREFUSED")
        (oddsRequest "nfl")).run.1
      = .ok { status := 500, body := some (.obj
          [("error", .str "Failed to fetch odds"),
           ("message", .str "connect ECONNREFUSED")]) }
    ∧ (usageHandler sampleEnv sampleRuntime flakyUpstream (sampleRequest "GET" "/api/usage")).run.1
      = .ok { status := 500, body := some (.obj
          [("error", .str "Failed to check usage"), ("message", .str "socket hang up")]) }
    ∧ (sportsHandler sampleEnv sampleRuntime (answering 200 (.error "Unexpected token <"))
        allSportsRequest).run.1
      = .ok { status := 500, body := some (.obj
          [("error", .str "Failed to fetch sports"),
           ("message", .str "Unexpected token <")]) }
    ∧ (oddsHandler sampleEnv sampleRuntime flakyUpstream (oddsRequest "nfl")).run.1
      = .ok { status := 500, body := some (.obj
          [("error", .str "Failed to fetch odds"), ("message", .str "socket hang up")]) } :=
  ⟨(outbound_failure_gives_500 sampleEnv sampleRuntime
      (fun _ => .rejected "getaddrinfo ENOTFOUND")).1 allSportsRequest _ rfl,
   (outbound_failure_gives_500 sampleEnv sampleRuntime
      (fun _ => .rejected "connect ECONNREFUSED")).2.1 (oddsRequest "nfl") _ rfl,
   (outbound_failure_gives_500 sampleEnv sampleRuntime flakyUpstream).2.2.1
      (sampleRequest "GET" "/api/usage") _ rfl,
   (outbound_failure_gives_500 sampleEnv sampleRuntime
      (answering 200 (.error "Unexpected token <"))).2.2.2.1 allSportsRequest _
      { status := 200, headers := fun _ => none, json := .error "Unexpected token <" }
      rfl (by decide) rfl,
   (outbound_failure_gives_500 sampleEnv sampleRuntime flakyUpstream).2.2.2.2
      (oddsRequest "nfl") _
      { status := 200, headers := fun _ => none, json := .error "socket hang up" }
      rfl (by decide) rfl⟩

/-! ## Health check and unmatched requests -/

/-- A `GET` request is not a CORS preflight. -/
theorem isPreflight_get (req : Request) (hmethod : req.method = "GET") :
    isPreflight req = false := by
  unfold isPreflight
  rw [hmethod]
  decide

/-- The router hands every `GET /health` request to the health route. -/
theorem matchRoute_get_health (rt : Runtime) (req : Request)
    (hmethod : req.method = "GET") (hpath : req.path = "/health") :
    matchRoute rt req = .handledBy .health := by
  have h1 : (matchesLiteral "" "/health" && handlesMethod "GET") = false := by decide
  have h2 : (matchesLiteral "/health" "/health" && handlesMethod "GET") = true := by decide
  unfold matchRoute
  rw [hmethod, hpath, h1, h2]
  rfl

/-- A response whose status is neither 2xx nor 304 is sent unchanged, except
that its body is not written for a `HEAD` request. -/
theorem send_404 (req : Request) (value : Json) :
    send req { status := 404, body := some value }
      = { status := 404, body := if req.method = "HEAD" then none else some value } := by
  have h : reqFresh req 404 value = false := by
    simp [reqFresh]
  simp [send, h]

/-- A request whose method no route serves is passed over by every route, unless
its path is an odds path whose segment cannot be decoded. -/
theorem matchRoute_other_method (rt : Runtime) (req : Request)
    (hmethod : handlesMethod req.method = false) :
    matchRoute rt req = .unmatched ∨ ∃ message, matchRoute rt req = .failed message := by
  unfold matchRoute matchUsage
  simp only [hmethod, Bool.and_false, Bool.false_eq_true, if_false]
  cases matchOddsPath req.path with
  | none => exact Or.inl rfl
  | some capture =>
    cases hd : rt.decodeURIComponent capture with
    | none => exact Or.inr ⟨"Failed to decode param '" ++ capture ++ "'", by simp only [hd]⟩
    | some sport => exact Or.inl (by simp only [hd])

/-- C8 (counterexample): a `GET /health` request whose body the JSON body
parser rejects is answered 500 by the error handler, and a `GET /health`
request carrying `If-None-Match: *` is answered 304 without a body; neither
gets status 200 with the health document. -/
theorem health_not_always_200 :
    (app sampleEnv sampleRuntime (answering 200 (.ok (.arr [])))
        { sampleRequest "GET" "/health" with bodyParserError := some "Unexpected token" }).run
      = (.ok { status := 500, body := some (.obj [("error", .str "Internal server error")]) },
         [])
    ∧ (app sampleEnv sampleRuntime (answering 200 (.ok (.arr [])))
        { sampleRequest "GET" "/health" with conditionalMatch := fun _ => true }).run
      = (.ok { status := 304, body := none }, []) :=
  ⟨rfl, rfl⟩

/-- C8 (amended): for every `GET /health` request, whatever its query
parameters and whatever the upstream, no upstream request is made; and when
the JSON body parser raises no error on the request and its cache validators
are not satisfied by the response (as for every unconditional request), the
response has status 200 and body `{status: "healthy", timestamp: t}`, `t` being
the runtime's ISO-8601 rendering of the current time. A request with satisfied
validators is answered 304 without a body, and one whose body the parser
rejects is answered 500 by the error handler. -/
theorem health_answers_200 (env : ProcessEnv) (rt : Runtime) (upstream : Upstream)
    (req : Request) (hmethod : req.method = "GET") (hpath : req.path = "/health") :
    (app env rt upstream req).run.2 = []
    ∧ (req.bodyParserError = none →
        req.conditionalMatch (.obj [("status", .str "healthy"), ("timestamp", .str rt.isoNow)])
          = false →
        (app env rt upstream req).run.1
          = .ok { status := 200, body := some (.obj
              [("status", .str "healthy"), ("timestamp", .str rt.isoNow)]) })
    ∧ (req.bodyParserError = none →
        req.conditionalMatch (.obj [("status", .str "healthy"), ("timestamp", .str rt.isoNow)])
          = true →
        (app env rt upstream req).run.1 = .ok { status := 304, body := none })
    ∧ (∀ err, req.bodyParserError = some err →
        (app env rt upstream req).run.1
          = .ok { status := 500, body := some (.obj
              [("error", .str "Internal server error")]) }) := by
  have hpre := isPreflight_get req hmethod
  have hroute := matchRoute_get_health rt req hmethod hpath
  refine ⟨?_, ?_, ?_, ?_⟩
  · cases hb : req.bodyParserError with
    | none => simp [app, hpre, hroute, hb, Eff.run, sent, healthHandler, pure, Eff.pure]
    | some err => simp [app, hpre, hb, Eff.run, sent, errorHandler, pure, Eff.pure]
  · intro hb hfresh
    simp [app, hpre, hroute, hb, Eff.run, sent, healthHandler, pure, Eff.pure, send,
      resStatusJson, reqFresh, hmethod, hfresh]
  · intro hb hfresh
    simp [app, hpre, hroute, hb, Eff.run, sent, healthHandler, pure, Eff.pure, send,
      resStatusJson, reqFresh, hmethod, hfresh]
  · intro err hb
    simp [app, hpre, hb, Eff.run, sent, errorHandler, pure, Eff.pure, send,
      resStatusJson, reqFresh, hmethod]

/-- Witness of C8 (amended) at `GET /health?verbose=1` with an unreachable
upstream. -/
theorem health_answers_200_witness :
    (app sampleEnv sampleRuntime (fun _ => .rejected "connect ECONNREFUSED")
        { sampleRequest "GET" "/health" with query := fun _ => some (.str "1") }).run
      = (.ok { status := 200, body := some (.obj
          [("status", .str "healthy"), ("timestamp", .str "2024-01-01T00:00:00.000Z")]) },
         []) :=
  Prod.ext
    ((health_answers_200 sampleEnv sampleRuntime (fun _ => .rejected "connect ECONNREFUSED")
      { sampleRequest "GET" "/health" with query := fun _ => some (.str "1") }
      rfl rfl).2.1 rfl rfl)
    ((health_answers_200 sampleEnv sampleRuntime (fun _ => .rejected "connect ECONNREFUSED")
      { sampleRequest "GET" "/health" with query := fun _ => some (.str "1") }
      rfl rfl).1)

/-- C7 (counterexample): four requests that match none of the listed routes and
are not answered 404. `OPTIONS /nope` is answered 204 without a body by the
CORS middleware; `POST /nope` with a body the JSON parser rejects is answered
500 by the error handler; `HEAD /health` is served by the `GET /health` route
and answered 200 without a body; `POST /api/odds/%E0%A4%A` is answered 500
because decoding the path parameter throws before the method is compared. -/
theorem unmatched_request_not_always_404 :
    (matchRoute sampleRuntime (sampleRequest "OPTIONS" "/nope") = .unmatched
      ∧ (app sampleEnv sampleRuntime (answering 200 (.ok (.arr [])))
          (sampleRequest "OPTIONS" "/nope")).run
        = (.ok { status := 204, body := none }, []))
    ∧ (matchRoute sampleRuntime
          { sampleRequest "POST" "/nope" with bodyParserError := some "Unexpected token" }
        = .unmatched
      ∧ (app sampleEnv sampleRuntime (answering 200 (.ok (.arr [])))
          { sampleRequest "POST" "/nope" with bodyParserError := some "Unexpected token" }).run
        = (.ok { status := 500, body := some (.obj [("error", .str "Internal server error")]) },
           []))
    ∧ (app sampleEnv sampleRuntime (answering 200 (.ok (.arr [])))
          (sampleRequest "HEAD" "/health")).run
        = (.ok { status := 200, body := none }, [])
    ∧ (matchRoute sampleRuntime (sampleRequest "POST" "/api/odds/%E0%A4%A")
        = .failed "Failed to decode param '%E0%A4%A'"
      ∧ (app sampleEnv sampleRuntime (answering 200 (.ok (.arr [])))
          (sampleRequest "POST" "/api/odds/%E0%A4%A")).run
        = (.ok { status := 500, body := some (.obj [("error", .str "Internal server error")]) },
           [])) :=
  ⟨⟨by decide, rfl⟩, ⟨by decide, rfl⟩, rfl, ⟨by decide, rfl⟩⟩

/-- C7 (amended): every request that passes the two global middlewares (its
method is not `OPTIONS`, and the JSON body parser raises no error on it) and
for which the router's scan ends without a route (no route has both a matching
path and a method it serves, `HEAD` being served by the `GET` routes, and no
path parameter fails to decode) is answered by the 404 handler: status 404,
body `{"error":"Endpoint not found"}` (not written when the method is `HEAD`),
and no upstream request is made. -/
theorem unmatched_request_gives_404 (env : ProcessEnv) (rt : Runtime) (upstream : Upstream)
    (req : Request)
    (hcors : isPreflight req = false) (hbody : req.bodyParserError = none)
    (hroute : matchRoute rt req = .unmatched) :
    (app env rt upstream req).run
      = (.ok { status := 404,
               body := if req.method = "HEAD" then none
                       else some (.obj [("error", .str "Endpoint not found")]) },
         []) := by
  simp only [app, hcors, hbody, hroute, Eff.run, sent, notFoundHandler, pure, Eff.pure,
    resStatusJson, send_404, Bool.false_eq_true, if_false]

/-- Witness of C7 (amended) at `GET /nope`. -/
theorem unmatched_request_gives_404_witness :
    (app sampleEnv sampleRuntime (answering 200 (.ok (.arr [])))
        (sampleRequest "GET" "/nope")).run
      = (.ok { status := 404, body := some (.obj [("error", .str "Endpoint not found")]) },
         []) :=
  unmatched_request_gives_404 sampleEnv sampleRuntime (answering 200 (.ok (.arr [])))
    (sampleRequest "GET" "/nope") (by decide) rfl (by decide)

end BettingProxy
